import Mathlib

/-!
Shallow embedding of the result-caching layer of the albert-python
launcher plugins (Linkding and Paperless), covering: the paginated
fetcher (`get_articles` / `fetch_request`), the cache store and refresh
controller (`_get_cached_results`, `refresh_cache`, `get_results`), the
mutation wrappers (`archive_link`, `delete_link`), the query filter and
debounce loop of `handleTriggerQuery`, the background `cache_routine`,
and the configuration setters (`cache_results`, `auto_cache`).

Machine conventions: timestamps (`datetime.now()`, `cache_timeout`) are
natural numbers in abstract minutes; the outcome of consuming a fetch
generator is `Except String (List Article)` where `.error` stands for a
raised `requests` exception; the cache file is `Option (List Article)`
(`none` = file absent).  Remote services are modelled as functions from
URL to response.
-/

namespace AlbertPython

/-- One bookmark record, with the fields the Linkding plugin reads:
`item["id"]`, `item["url"]`, `item["title"]`, `item["tag_names"]`. -/
structure Article where
  id : String
  url : String
  title : String
  tag_names : List String
deriving DecidableEq, Repr

/-- One HTTP response of a paginated list endpoint, as consumed by
`get_articles` / `fetch_request`: `response.ok`, `response.status_code`,
and the JSON body's `next` cursor (null = `none`) and `results` list. -/
structure PageResponse where
  ok : Bool
  status_code : Nat
  next : Option String
  results : List Article
deriving DecidableEq, Repr

/-- Containment of `q` as a contiguous subsequence: Python's `q in s`
for strings works this way on the character lists. -/
def occursIn [BEq α] (q : List α) : List α → Bool
  | [] => q.isEmpty
  | c :: rest => q.isPrefixOf (c :: rest) || occursIn q rest

/-- Python's `q in s` on `String`s. -/
def pyInStr (q s : String) : Bool := occursIn q.data s.data

/-- Python's `str.strip()`: drop leading and trailing whitespace. -/
def pyStrip (s : String) : String :=
  ⟨((s.data.dropWhile Char.isWhitespace).reverse.dropWhile
      Char.isWhitespace).reverse⟩

/-- The codepoint of a character after ASCII lowercasing. -/
def lowerCode (c : Char) : Nat :=
  if 65 ≤ c.toNat ∧ c.toNat ≤ 90 then c.toNat + 32 else c.toNat

/-- Modelled from the spec (§4.5), for comparison with the source's
filter: "an item matches iff the lowercased query string is a substring
of the item's lowercased `searchable_text()`" — substring containment
after lowercasing both sides. -/
def specLowercaseMatch (q s : String) : Bool :=
  occursIn (q.data.map lowerCode) (s.data.map lowerCode)

/-- The operation a result item's `Action` callable performs when the
user triggers it.  Each constructor stands for the function the
corresponding lambda calls: `openUrl(u)`, `setClipboardText(u)`,
`self.archive_link(link_id)`, `self.delete_link(link_id)`,
`self.refresh_cache()`, `self.download_document(u)`. -/
inductive ItemAction
  | openUrl (u : String)
  | setClipboardText (u : String)
  | archiveLink (link_id : String)
  | deleteLink (link_id : String)
  | refreshCache
  | downloadDocument (u : String)
deriving DecidableEq, Repr

/-- One `Action(id, label, callable)` attached to a result item. -/
structure ActionSpec where
  id : String
  label : String
  op : ItemAction
deriving DecidableEq, Repr

/-- The parts of an albert `StandardItem` the plugins fill in. -/
structure StandardItem where
  text : String
  subtext : String
  actions : List ActionSpec
deriving DecidableEq, Repr

/-- What a `handleTriggerQuery` invocation produced: the informational
items of the empty-query branch, an early return from the debounce
loop, an exception escaping the handler, or the generated result
items. -/
inductive QueryOutcome
  | emptyQuery
  | aborted
  | raised (e : String)
  | results (items : List StandardItem)
deriving DecidableEq, Repr

/-- Counts of the externally observable work a query path performs:
remote fetch sequences issued (`fetch_results` / `fetch_documents`
consumptions), cache file reads, and filter passes over the data. -/
structure Work where
  remoteFetches : Nat
  cacheReads : Nat
  filterRuns : Nat
deriving DecidableEq, Repr

namespace Linkding

/-- `Plugin.get_articles` (src/linkding/__init__.py lines 190-198),
run for `fuel` loop iterations.  Each iteration issues
`requests.get(url)`; on `response.ok` it advances `url` to
`result["next"]` and yields `result["results"]`; otherwise it only logs
`warning(...)` and re-enters `while url:` with `url` unchanged.  Returns
the pages yielded so far and `true` iff the loop exited (`url` became
null) within `fuel` iterations. -/
def get_articles (svc : String → PageResponse) :
    Nat → Option String → List (List Article) × Bool
  | _, none => ([], true)
  | 0, some _ => ([], false)
  | fuel + 1, some url =>
      let r := svc url
      if r.ok then
        let rest := get_articles svc fuel r.next
        (r.results :: rest.1, rest.2)
      else
        get_articles svc fuel (some url)

/-- `Plugin.fetch_results` (lines 184-188): flattens the pages of
`get_articles` into one stream of articles
(`article for article_list in ... for article in article_list`). -/
def fetch_results_from (svc : String → PageResponse) (fuel : Nat)
    (start : Option String) : List Article × Bool :=
  let p := get_articles svc fuel start
  (p.1.flatten, p.2)

/-- The chain of pages a fake paginated service serves starting from a
cursor: each listed `(url, items)` pair must be answered `ok` with
`results = items`, and the `next` cursors must link the pages in order,
ending in null. -/
def isChain (svc : String → PageResponse) :
    Option String → List (String × List Article) → Prop
  | none, [] => True
  | none, _ :: _ => False
  | some _, [] => False
  | some u, (u', items) :: rest =>
      u' = u ∧ (svc u).ok = true ∧ (svc u).results = items ∧
        isChain svc (svc u).next rest

/-- The mutable per-instance state of the Linkding plugin that the
caching layer touches: the config fields `_cache_results`,
`_cache_length`, `_auto_cache`, the `thread_stop` event (`true` = set),
the cache file contents (`none` = file absent) and `cache_timeout`. -/
structure LdState where
  cache_results : Bool
  cache_length : Nat
  auto_cache : Bool
  thread_stop : Bool
  cacheFile : Option (List Article)
  cache_timeout : Nat
deriving DecidableEq, Repr

/-- `Plugin.refresh_cache` (lines 215-218).  Line 216 only builds the
lazy `fetch_results` generator; line 217 advances `cache_timeout` to
`now + cache_length` BEFORE line 218 consumes the generator, so the
timeout is advanced even when consumption raises.  `fetch` is the
outcome of consuming the generator (`.error` = raised exception); on
success `write_cache` stores the items and returns them. -/
def refresh_cache (fetch : Except String (List Article)) (now : Nat)
    (s : LdState) : Except String (List Article) × LdState :=
  let s1 := { s with cache_timeout := now + s.cache_length }
  match fetch with
  | .error e => (.error e, s1)
  | .ok items => (.ok items, { s1 with cacheFile := some items })

/-- `Plugin._get_cached_results` (lines 200-207): cache hit iff the
cache file exists and `cache_timeout >= datetime.now()`; a hit reads
the file and makes no remote call, otherwise `refresh_cache` runs. -/
def get_cached_results (fetch : Except String (List Article)) (now : Nat)
    (s : LdState) : Except String (List Article) × LdState × Work :=
  match s.cacheFile with
  | some items =>
      if s.cache_timeout ≥ now then (.ok items, s, ⟨0, 1, 0⟩)
      else
        let r := refresh_cache fetch now s
        (r.1, r.2, ⟨1, 0, 0⟩)
  | none =>
      let r := refresh_cache fetch now s
      (r.1, r.2, ⟨1, 0, 0⟩)

/-- `Plugin.get_results` (lines 179-182): serve from the cache layer
when `_cache_results` is set, otherwise fetch directly. -/
def get_results (fetch : Except String (List Article)) (now : Nat)
    (s : LdState) : Except String (List Article) × LdState × Work :=
  if s.cache_results then get_cached_results fetch now s
  else (fetch, s, ⟨1, 0, 0⟩)

/-- One wake-up of `Plugin.cache_routine` (lines 209-213): refresh only
when the `thread_stop` event is not set.  Returns the new state and the
number of refreshes performed by this fire. -/
def cache_routine_fire (fetch : Except String (List Article)) (now : Nat)
    (s : LdState) : LdState × Nat :=
  if s.thread_stop then (s, 0)
  else ((refresh_cache fetch now s).2, 1)

/-- The `auto_cache` property setter (lines 98-105): store the value,
then clear the stop event iff `_auto_cache and _cache_results`, else
set it. -/
def set_auto_cache (value : Bool) (s : LdState) : LdState :=
  let s1 := { s with auto_cache := value }
  if s1.auto_cache && s1.cache_results then { s1 with thread_stop := false }
  else { s1 with thread_stop := true }

/-- The `cache_results` property setter (lines 76-82): store the value
and, when it is false, `cache_file.unlink(missing_ok=True)`. -/
def set_cache_results (value : Bool) (s : LdState) : LdState :=
  let s1 := { s with cache_results := value }
  if value then s1 else { s1 with cacheFile := none }

/-- `Path.unlink(missing_ok=True)` on the cache file: removes the file
if present; by the `missing_ok=True` contract it is total (never an
error), also when the file is already absent. -/
def unlink_cache_file (s : LdState) : LdState := { s with cacheFile := none }

/-- `Plugin.delete_link` (lines 220-228): issue the HTTP DELETE; on
`response.ok` run `refresh_cache`, else only log a warning.  `respOk`
is the mutation response's `ok`; the returned `Nat` counts the refresh
invocations. -/
def delete_link (respOk : Bool) (fetch : Except String (List Article))
    (now : Nat) (s : LdState) : LdState × Nat :=
  if respOk then ((refresh_cache fetch now s).2, 1) else (s, 0)

/-- `Plugin.archive_link` (lines 230-238): issue the HTTP POST to the
`/archive/` endpoint; on `response.ok` run `refresh_cache`, else only
log a warning. -/
def archive_link (respOk : Bool) (fetch : Except String (List Article))
    (now : Nat) (s : LdState) : LdState × Nat :=
  if respOk then ((refresh_cache fetch now s).2, 1) else (s, 0)

/-- `Plugin.create_filters` (lines 160-162):
`",".join([item["url"], item["title"], ",".join(tag_names)])`. -/
def create_filters (item : Article) : String :=
  ",".intercalate [item.url, item.title, ",".intercalate item.tag_names]

/-- The filter generator of `handleTriggerQuery` (line 131):
`(item for item in data if stripped in self.create_filters(item))`. -/
def filter_articles (stripped : String) (data : List Article) : List Article :=
  data.filter fun item => pyInStr stripped (create_filters item)

/-- `Plugin.gen_items` (lines 164-177).  `text` is
`article["title"] or article["url"]` (empty title falls back to the
URL); note the `"delete"` action's lambda is
`lambda u=article["id"]: self.archive_link(u)` (line 175), the same
callable as the `"archive"` action's. -/
def gen_items (articles : List Article) : List StandardItem :=
  articles.map fun article =>
    { text := if article.title = "" then article.url else article.title
      subtext := ",".intercalate article.tag_names ++ ": " ++ article.url
      actions :=
        [⟨"open", "Open article", .openUrl article.url⟩,
         ⟨"copy", "Copy URL to clipboard", .setClipboardText article.url⟩,
         ⟨"archive", "Archive article", .archiveLink article.id⟩,
         ⟨"delete", "Delete article", .archiveLink article.id⟩] }

/-- `Plugin.handleTriggerQuery` (lines 121-149).  With non-empty
stripped text the handler first runs
`for _ in range(50): sleep(0.01); if not query.isValid: return` —
50 checks at 10ms intervals; `validAt i` is `query.isValid` at the
i-th check.  An early return performs no fetch, no cache read and no
filtering.  Otherwise `get_results` runs, the articles are filtered by
`stripped in create_filters(item)` and `gen_items` builds the output.
The informational items of the empty-query branch are collapsed into
`.emptyQuery` (no remote or cache work happens there either). -/
def handleTriggerQuery (queryString : String) (validAt : Nat → Bool)
    (fetch : Except String (List Article)) (now : Nat) (s : LdState) :
    QueryOutcome × LdState × Work :=
  let stripped := pyStrip queryString
  if stripped = "" then (.emptyQuery, s, ⟨0, 0, 0⟩)
  else if (List.range 50).any (fun i => !(validAt i)) then
    (.aborted, s, ⟨0, 0, 0⟩)
  else
    match get_results fetch now s with
    | (.error e, s1, w) => (.raised e, s1, w)
    | (.ok data, s1, w) =>
        (.results (gen_items (filter_articles stripped data)), s1,
          { w with filterRuns := w.filterRuns + 1 })

end Linkding

namespace Paperless

/-- One document record after `fetch_documents`'s `field_map` passes,
with the fields the Paperless plugin reads: `item["id"]`,
`item["title"]` and the optional `tags`, `document_type`, `body`
(absent or null = `none`). -/
structure Document where
  id : String
  title : String
  tags : Option String
  document_type : Option String
  body : Option String
deriving DecidableEq, Repr

/-- One HTTP response of the paginated `/api/documents/` endpoint as
consumed by `fetch_request` (src/paperless/__init__.py lines
351-361). -/
structure DocPageResponse where
  ok : Bool
  status_code : Nat
  next : Option String
  results : List Document
deriving DecidableEq, Repr

/-- `Plugin.fetch_request` (lines 351-361), run for `fuel` loop
iterations.  Structurally identical to Linkding's `get_articles`: on
`response.ok` it advances `url` to `result["next"]` and yields
`result["results"]`; otherwise it only logs a warning and re-enters
`while url:` with `url` unchanged. -/
def fetch_request (svc : String → DocPageResponse) :
    Nat → Option String → List (List Document) × Bool
  | _, none => ([], true)
  | 0, some _ => ([], false)
  | fuel + 1, some url =>
      let r := svc url
      if r.ok then
        let rest := fetch_request svc fuel r.next
        (r.results :: rest.1, rest.2)
      else
        fetch_request svc fuel (some url)

/-- The page chain a fake paginated document service serves, as for
Linkding's `isChain`. -/
def isDocChain (svc : String → DocPageResponse) :
    Option String → List (String × List Document) → Prop
  | none, [] => True
  | none, _ :: _ => False
  | some _, [] => False
  | some u, (u', items) :: rest =>
      u' = u ∧ (svc u).ok = true ∧ (svc u).results = items ∧
        isDocChain svc (svc u).next rest

/-- The mutable per-instance state of the Paperless plugin that the
caching layer touches.  There is no stop event: the background thread
started in `__init__` has no cancellation mechanism. -/
structure PlState where
  cache_results : Bool
  cache_length : Nat
  auto_cache : Bool
  filter_by_tags : Bool
  filter_by_type : Bool
  filter_by_body : Bool
  cacheFile : Option (List Document)
  cache_timeout : Nat
deriving DecidableEq, Repr

/-- `Plugin.refresh_cache` (lines 335-338): as in Linkding, line 337
advances `cache_timeout` to `now + cache_length` BEFORE line 338
consumes the lazy `fetch_documents` generator, so the timeout is
advanced even when consumption raises. -/
def refresh_cache (fetch : Except String (List Document)) (now : Nat)
    (s : PlState) : Except String (List Document) × PlState :=
  let s1 := { s with cache_timeout := now + s.cache_length }
  match fetch with
  | .error e => (.error e, s1)
  | .ok items => (.ok items, { s1 with cacheFile := some items })

/-- `Plugin._get_cached_results` (lines 302-308): cache hit iff the
cache file exists and `cache_timeout >= datetime.now()`. -/
def get_cached_results (fetch : Except String (List Document)) (now : Nat)
    (s : PlState) : Except String (List Document) × PlState × Work :=
  match s.cacheFile with
  | some items =>
      if s.cache_timeout ≥ now then (.ok items, s, ⟨0, 1, 0⟩)
      else
        let r := refresh_cache fetch now s
        (r.1, r.2, ⟨1, 0, 0⟩)
  | none =>
      let r := refresh_cache fetch now s
      (r.1, r.2, ⟨1, 0, 0⟩)

/-- `Plugin.get_results` (lines 297-300). -/
def get_results (fetch : Except String (List Document)) (now : Nat)
    (s : PlState) : Except String (List Document) × PlState × Work :=
  if s.cache_results then get_cached_results fetch now s
  else (fetch, s, ⟨1, 0, 0⟩)

/-- One wake-up of `Plugin.cache_routine` (lines 340-343):
`while True: self.refresh_cache(); sleep(3600)` — unlike Linkding's
routine there is no stop-event check, every fire refreshes. -/
def cache_routine_fire (fetch : Except String (List Document)) (now : Nat)
    (s : PlState) : PlState × Nat :=
  ((refresh_cache fetch now s).2, 1)

/-- The `auto_cache` setter (lines 125-128; note its decorator is
`@cache_results.setter`): it stores `_auto_cache` and writes the
config, and does nothing else — no thread or stop event is touched. -/
def set_auto_cache (value : Bool) (s : PlState) : PlState :=
  { s with auto_cache := value }

/-- The `cache_results` setter (lines 103-109): store the value and,
when it is false, `cache_file.unlink(missing_ok=True)`. -/
def set_cache_results (value : Bool) (s : PlState) : PlState :=
  let s1 := { s with cache_results := value }
  if value then s1 else { s1 with cacheFile := none }

/-- `Plugin.create_filters` (lines 232-240): start from
`item["title"]` and append `item.get(f) or ""` for each enabled
filter field. -/
def create_filters (s : PlState) (item : Document) : String :=
  let f := item.title
  let f := if s.filter_by_tags then f ++ item.tags.getD "" else f
  let f := if s.filter_by_type then f ++ item.document_type.getD "" else f
  let f := if s.filter_by_body then f ++ item.body.getD "" else f
  f

/-- The filter generator of `handleTriggerQuery` (line 194):
`(item for item in data if stripped in self.create_filters(item))`. -/
def filter_documents (s : PlState) (stripped : String)
    (data : List Document) : List Document :=
  data.filter fun item => pyInStr stripped (create_filters s item)

/-- `Plugin.gen_items` (lines 242-262). -/
def gen_items (instance_url : String) (documents : List Document) :
    List StandardItem :=
  documents.map fun document =>
    let preview_url := instance_url ++ "/api/documents/" ++ document.id ++ "/preview/"
    let download_url := instance_url ++ "/api/documents/" ++ document.id ++ "/download/"
    { text := document.title
      subtext := " - ".intercalate
        [document.document_type.getD "No type", document.tags.getD "No tags"]
      actions :=
        [⟨"download", "Download document", .downloadDocument download_url⟩,
         ⟨"open", "Open document in browser", .openUrl preview_url⟩,
         ⟨"copy", "Copy preview URL to clipboard", .setClipboardText preview_url⟩,
         ⟨"copy-dl", "Copy preview URL to clipboard", .setClipboardText download_url⟩] }

/-- `Plugin.handleTriggerQuery` (lines 184-212), modelled as for
Linkding: 50 debounce checks at 10ms intervals, early return on an
invalidated query with no fetch, no cache read and no filtering. -/
def handleTriggerQuery (instance_url : String) (queryString : String)
    (validAt : Nat → Bool) (fetch : Except String (List Document))
    (now : Nat) (s : PlState) : QueryOutcome × PlState × Work :=
  let stripped := pyStrip queryString
  if stripped = "" then (.emptyQuery, s, ⟨0, 0, 0⟩)
  else if (List.range 50).any (fun i => !(validAt i)) then
    (.aborted, s, ⟨0, 0, 0⟩)
  else
    match get_results fetch now s with
    | (.error e, s1, w) => (.raised e, s1, w)
    | (.ok data, s1, w) =>
        (.results (gen_items instance_url (filter_documents s1 stripped data)), s1,
          { w with filterRuns := w.filterRuns + 1 })

end Paperless

/-! Concrete fixtures used by witnesses and counterexamples. -/

/-- A sample bookmark. -/
def art1 : Article := ⟨"42", "https://example.org/a", "Example A", ["news", "tech"]⟩

/-- A bookmark whose `create_filters` string is `"foo,bar,"`, matching
the spec's `"foo,bar"` searchable-text example. -/
def barArticle : Article := ⟨"7", "foo", "bar", []⟩

/-- Six bookmarks for the three-page pagination example. -/
def chainArt (i : Nat) : Article :=
  ⟨toString i, "https://example.org/" ++ toString i, "Bookmark " ++ toString i, []⟩

/-- A sample document. -/
def doc1 : Paperless.Document := ⟨"1", "Invoice March", some "finance", some "invoice", none⟩

/-- A second sample document. -/
def doc2 : Paperless.Document := ⟨"2", "Receipt April", some "finance", some "receipt", none⟩

/-- Six documents for the three-page pagination example. -/
def chainDoc (i : Nat) : Paperless.Document :=
  ⟨toString i, "Document " ++ toString i, none, none, none⟩

/-- A bookmark service whose every GET answers HTTP 500. -/
def badSvc : String → PageResponse := fun _ => ⟨false, 500, none, []⟩

/-- A document service whose every GET answers HTTP 500. -/
def badDocSvc : String → Paperless.DocPageResponse := fun _ => ⟨false, 500, none, []⟩

/-- A fake bookmark service serving 3 pages of 2 items each, with
`next` chained `p1 → p2 → p3` then null. -/
def svc3 : String → PageResponse := fun u =>
  if u = "p1" then ⟨true, 200, some "p2", [chainArt 1, chainArt 2]⟩
  else if u = "p2" then ⟨true, 200, some "p3", [chainArt 3, chainArt 4]⟩
  else if u = "p3" then ⟨true, 200, none, [chainArt 5, chainArt 6]⟩
  else ⟨false, 404, none, []⟩

/-- A fake document service serving 3 pages of 2 items each, with
`next` chained `p1 → p2 → p3` then null. -/
def docSvc3 : String → Paperless.DocPageResponse := fun u =>
  if u = "p1" then ⟨true, 200, some "p2", [chainDoc 1, chainDoc 2]⟩
  else if u = "p2" then ⟨true, 200, some "p3", [chainDoc 3, chainDoc 4]⟩
  else if u = "p3" then ⟨true, 200, none, [chainDoc 5, chainDoc 6]⟩
  else ⟨false, 404, none, []⟩

/-- A Linkding state with caching enabled and no cache file yet. -/
def ldCold : Linkding.LdState := ⟨true, 60, false, true, none, 0⟩

/-- A Linkding state with caching disabled. -/
def ldNoCache : Linkding.LdState := ⟨false, 60, false, true, none, 0⟩

/-- A Linkding state holding a stale entry: the cache file holds
`[art1]` and `cache_timeout = 5` lies in the past of `now = 10`. -/
def ldStale : Linkding.LdState := ⟨true, 60, false, true, some [art1], 5⟩

/-- A Paperless state with caching enabled and no cache file yet. -/
def plCold : Paperless.PlState := ⟨true, 60, false, true, true, false, none, 0⟩

/-- A Paperless state with caching and auto-refresh on and a cached
entry. -/
def plAuto : Paperless.PlState := ⟨true, 60, true, true, true, false, some [doc1], 100⟩

/-- The `StandardItem` that `Linkding.gen_items` builds for `art1`. -/
def ldItem1 : StandardItem :=
  { text := "Example A"
    subtext := "news,tech: https://example.org/a"
    actions :=
      [⟨"open", "Open article", .openUrl "https://example.org/a"⟩,
       ⟨"copy", "Copy URL to clipboard", .setClipboardText "https://example.org/a"⟩,
       ⟨"archive", "Archive article", .archiveLink "42"⟩,
       ⟨"delete", "Delete article", .archiveLink "42"⟩] }

/-! Helper lemmas shared by the claim theorems. -/

/-- `occursIn` agrees with contiguous-sublist containment. -/
theorem occursIn_iff_infix (q : List Char) :
    ∀ l, occursIn q l = true ↔ q <:+: l := by
  intro l
  induction l with
  | nil =>
      simp [occursIn, List.isEmpty_iff]
  | cons c rest ih =>
      simp [occursIn, List.infix_cons_iff, ih]

/-- While a URL answers a non-success status, Linkding's
`get_articles` loop re-requests it forever: no abort, no yielded
page, no termination within any number of iterations. -/
theorem ld_get_articles_nonok (svc : String → PageResponse) (u : String)
    (h : (svc u).ok = false) :
    ∀ fuel, Linkding.get_articles svc fuel (some u) = ([], false) := by
  intro fuel
  induction fuel with
  | zero => rfl
  | succ n ih => simp [Linkding.get_articles, h, ih]

/-- Same for Paperless's `fetch_request` loop. -/
theorem pl_fetch_request_nonok (svc : String → Paperless.DocPageResponse)
    (u : String) (h : (svc u).ok = false) :
    ∀ fuel, Paperless.fetch_request svc fuel (some u) = ([], false) := by
  intro fuel
  induction fuel with
  | zero => rfl
  | succ n ih => simp [Paperless.fetch_request, h, ih]

/-- Along a fully successful page chain, Linkding's `get_articles`
terminates and yields exactly the chain's `results` lists in order. -/
theorem ld_get_articles_chain (svc : String → PageResponse) :
    ∀ (pages : List (String × List Article)) (start : Option String),
      Linkding.isChain svc start pages → ∀ extra,
        Linkding.get_articles svc (pages.length + extra) start =
          (pages.map Prod.snd, true) := by
  intro pages
  induction pages with
  | nil =>
      intro start h extra
      cases start with
      | none => cases extra <;> rfl
      | some u => exact absurd h (by simp [Linkding.isChain])
  | cons p rest ih =>
      intro start h extra
      cases start with
      | none => exact absurd h (by simp [Linkding.isChain])
      | some u =>
          obtain ⟨hu, hok, hres, hchain⟩ := h
          have hlen : rest.length + 1 + extra = rest.length + (extra + 1) := by
            omega
          simp only [List.length_cons, hlen, Linkding.get_articles, hok, if_pos]
          have hih := ih (svc u).next hchain extra
          simp only [Nat.add_eq]
          rw [hih]
          simp [hres]

/-- Same for Paperless's `fetch_request` loop. -/
theorem pl_fetch_request_chain (svc : String → Paperless.DocPageResponse) :
    ∀ (pages : List (String × List Paperless.Document)) (start : Option String),
      Paperless.isDocChain svc start pages → ∀ extra,
        Paperless.fetch_request svc (pages.length + extra) start =
          (pages.map Prod.snd, true) := by
  intro pages
  induction pages with
  | nil =>
      intro start h extra
      cases start with
      | none => cases extra <;> rfl
      | some u => exact absurd h (by simp [Paperless.isDocChain])
  | cons p rest ih =>
      intro start h extra
      cases start with
      | none => exact absurd h (by simp [Paperless.isDocChain])
      | some u =>
          obtain ⟨hu, hok, hres, hchain⟩ := h
          have hlen : rest.length + 1 + extra = rest.length + (extra + 1) := by
            omega
          simp only [List.length_cons, hlen, Paperless.fetch_request, hok, if_pos]
          have hih := ih (svc u).next hchain extra
          simp only [Nat.add_eq]
          rw [hih]
          simp [hres]

/-! The claim theorems. -/

/-- C2 (code_bug evaluation): with a service whose GET of `"page1"`
answers HTTP 500, the paginated fetch loops of both plugins never
abort: after 100 and even 1000 `while url:` iterations they have
produced no error value and no items and are still re-requesting the
same URL (second component `false` = loop still running).  The claimed
immediate abort with a `RemoteError{status, url}` does not exist in the
code: the non-success branch only logs a warning and leaves `url`
unchanged. -/
theorem C2_nonsuccess_never_aborts :
    Linkding.get_articles badSvc 100 (some "page1") = ([], false) ∧
    Linkding.get_articles badSvc 1000 (some "page1") = ([], false) ∧
    Paperless.fetch_request badDocSvc 100 (some "page1") = ([], false) ∧
    Paperless.fetch_request badDocSvc 1000 (some "page1") = ([], false) :=
  ⟨ld_get_articles_nonok badSvc "page1" rfl 100,
   ld_get_articles_nonok badSvc "page1" rfl 1000,
   pl_fetch_request_nonok badDocSvc "page1" rfl 100,
   pl_fetch_request_nonok badDocSvc "page1" rfl 1000⟩

/-- C5: along any chain of successful pages linked by `next` cursors
and ending in null, the paginated fetch of either plugin terminates,
yields exactly the per-page `results` lists in page order, and
(Linkding's `fetch_results`) their order-preserving concatenation. -/
theorem C5_pagination_concatenates (fuel : Nat) :
    (∀ (svc : String → PageResponse) (start : Option String)
        (pages : List (String × List Article)),
      Linkding.isChain svc start pages → pages.length ≤ fuel →
        Linkding.get_articles svc fuel start = (pages.map Prod.snd, true) ∧
        Linkding.fetch_results_from svc fuel start =
          ((pages.map Prod.snd).flatten, true)) ∧
    (∀ (svc : String → Paperless.DocPageResponse) (start : Option String)
        (pages : List (String × List Paperless.Document)),
      Paperless.isDocChain svc start pages → pages.length ≤ fuel →
        Paperless.fetch_request svc fuel start = (pages.map Prod.snd, true)) := by
  constructor
  · intro svc start pages hchain hlen
    have hfuel : fuel = pages.length + (fuel - pages.length) := by omega
    have h := ld_get_articles_chain svc pages start hchain (fuel - pages.length)
    rw [hfuel]
    exact ⟨h, by simp [Linkding.fetch_results_from, h]⟩
  · intro svc start pages hchain hlen
    have hfuel : fuel = pages.length + (fuel - pages.length) := by omega
    have h := pl_fetch_request_chain svc pages start hchain (fuel - pages.length)
    rw [hfuel]
    exact h

/-- C5 witness: the fake services serving 3 pages of 2 items each with
`next` chained `p1 → p2 → p3` then null return exactly the 6 items in
page order. -/
theorem C5_pagination_concatenates_witness :
    Linkding.fetch_results_from svc3 3 (some "p1") =
      ([chainArt 1, chainArt 2, chainArt 3, chainArt 4, chainArt 5, chainArt 6],
        true) ∧
    Paperless.fetch_request docSvc3 3 (some "p1") =
      ([[chainDoc 1, chainDoc 2], [chainDoc 3, chainDoc 4],
        [chainDoc 5, chainDoc 6]], true) := by
  have hld := (C5_pagination_concatenates 3).1 svc3 (some "p1")
    [("p1", [chainArt 1, chainArt 2]), ("p2", [chainArt 3, chainArt 4]),
     ("p3", [chainArt 5, chainArt 6])]
    (by simp [Linkding.isChain, svc3]) (by simp)
  have hpl := (C5_pagination_concatenates 3).2 docSvc3 (some "p1")
    [("p1", [chainDoc 1, chainDoc 2]), ("p2", [chainDoc 3, chainDoc 4]),
     ("p3", [chainDoc 5, chainDoc 6])]
    (by simp [Paperless.isDocChain, docSvc3]) (by simp)
  exact ⟨by simpa using hld.2, by simpa using hpl⟩

/-- C1: with caching enabled, any read performed after a successful
refresh and while `now` is still before the entry's `cache_timeout`
(valid_until) is served the cached items, with one cache-file read and
zero remote fetches, and leaves the state unchanged — in both the
Linkding and the Paperless plugin. -/
theorem C1_fresh_read_served_from_cache :
    (∀ (s s1 : Linkding.LdState) (t now : Nat) (items : List Article)
        (fetch1 : Except String (List Article)),
      s.cache_results = true →
      s1 = (Linkding.refresh_cache (.ok items) t s).2 →
      now < s1.cache_timeout →
      Linkding.get_results fetch1 now s1 = (.ok items, s1, ⟨0, 1, 0⟩)) ∧
    (∀ (p p1 : Paperless.PlState) (t now : Nat)
        (docs : List Paperless.Document)
        (fetch1 : Except String (List Paperless.Document)),
      p.cache_results = true →
      p1 = (Paperless.refresh_cache (.ok docs) t p).2 →
      now < p1.cache_timeout →
      Paperless.get_results fetch1 now p1 = (.ok docs, p1, ⟨0, 1, 0⟩)) := by
  constructor
  · intro s s1 t now items fetch1 hc hs1 hnow
    subst hs1
    simp only [Linkding.refresh_cache] at hnow ⊢
    simp [Linkding.get_results, Linkding.get_cached_results, hc,
      Nat.le_of_lt hnow]
  · intro p p1 t now docs fetch1 hc hp1 hnow
    subst hp1
    simp only [Paperless.refresh_cache] at hnow ⊢
    simp [Paperless.get_results, Paperless.get_cached_results, hc,
      Nat.le_of_lt hnow]

/-- C1 witness: after refreshing the cold states with one item at time
0, a read at time 30 (before the timeout 60) returns the cached item
with zero remote fetches, even though the remote side would fail. -/
theorem C1_fresh_read_served_from_cache_witness :
    Linkding.get_results (.error "network down") 30
        (Linkding.refresh_cache (.ok [art1]) 0 ldCold).2 =
      (.ok [art1], (Linkding.refresh_cache (.ok [art1]) 0 ldCold).2,
        ⟨0, 1, 0⟩) ∧
    Paperless.get_results (.error "network down") 30
        (Paperless.refresh_cache (.ok [doc1]) 0 plCold).2 =
      (.ok [doc1], (Paperless.refresh_cache (.ok [doc1]) 0 plCold).2,
        ⟨0, 1, 0⟩) :=
  ⟨C1_fresh_read_served_from_cache.1 ldCold _ 0 30 [art1]
      (.error "network down") rfl rfl (by decide),
   C1_fresh_read_served_from_cache.2 plCold _ 0 30 [doc1]
      (.error "network down") rfl rfl (by decide)⟩

/-- C3 counterexample: for the bookmark `barArticle` the searchable
text is `"foo,bar,"`, so the lowercased query `"BAR"` IS a lowercased
substring of the lowercased text, yet the code's filter — which never
lowercases — drops the item: `filter_articles` returns `[]` and the
whole trigger-query handler returns zero result items. -/
theorem C3_case_insensitivity_counterexample :
    specLowercaseMatch "BAR" (Linkding.create_filters barArticle) = true ∧
    Linkding.filter_articles "BAR" [barArticle] = [] ∧
    (Linkding.handleTriggerQuery "BAR" (fun _ => true) (.ok [barArticle]) 0
        ldNoCache).1 = .results [] := by
  exact ⟨by decide, by decide, by decide⟩

/-- C3 as amended: the query filter of both plugins returns exactly
those items whose searchable text contains the query as a
CASE-SENSITIVE substring, preserving the input's relative order (the
result is a sublist of the input). -/
theorem C3_filter_case_sensitive_substring :
    (∀ (q : String) (data : List Article),
      (Linkding.filter_articles q data).Sublist data) ∧
    (∀ (q : String) (data : List Article) (a : Article),
      a ∈ Linkding.filter_articles q data ↔
        a ∈ data ∧ q.data <:+: (Linkding.create_filters a).data) ∧
    (∀ (s : Paperless.PlState) (q : String) (data : List Paperless.Document),
      (Paperless.filter_documents s q data).Sublist data) ∧
    (∀ (s : Paperless.PlState) (q : String) (data : List Paperless.Document)
        (d : Paperless.Document),
      d ∈ Paperless.filter_documents s q data ↔
        d ∈ data ∧ q.data <:+: (Paperless.create_filters s d).data) := by
  refine ⟨fun q data => List.filter_sublist data, ?_,
    fun s q data => List.filter_sublist data, ?_⟩
  · intro q data a
    simp [Linkding.filter_articles, List.mem_filter, pyInStr,
      occursIn_iff_infix]
  · intro s q data d
    simp [Paperless.filter_documents, List.mem_filter, pyInStr,
      occursIn_iff_infix]

/-- C4 counterexample: `ldStale` holds the entry `[art1]` with
`valid_until = 5`; at `now = 10` the entry is stale, and the triggered
fetch raises.  The error does propagate, but the validity timestamp is
advanced from 5 to `10 + 60 = 70` by the failed refresh (line 217 runs
before the generator is consumed), so a read at time 20 — with the
remote still failing — serves the OLD entry as FRESH with zero remote
calls, contrary to the claim. -/
theorem C4_failed_refresh_counterexample :
    ldStale.cache_timeout = 5 ∧
    (Linkding.get_results (.error "ConnectTimeout") 10 ldStale).1 =
      .error "ConnectTimeout" ∧
    (Linkding.get_results (.error "ConnectTimeout") 10 ldStale).2.1.cache_timeout
      = 70 ∧
    Linkding.get_results (.error "still down") 20
        (Linkding.get_results (.error "ConnectTimeout") 10 ldStale).2.1 =
      (.ok [art1],
        (Linkding.get_results (.error "ConnectTimeout") 10 ldStale).2.1,
        ⟨0, 1, 0⟩) := by
  exact ⟨rfl, rfl, rfl, rfl⟩

/-- C4 as amended: on a STALE read whose fetch fails, the error is
propagated to the caller and no stale data is served on THAT read; but
the validity timestamp has already been advanced to
`now + cache_length` before the fetch was consumed, so any subsequent
read at a time within the new window is served the old entry as FRESH
with zero remote calls. -/
theorem C4_failed_refresh_advances_timeout
    (s : Linkding.LdState) (now : Nat) (e : String) (items : List Article)
    (hc : s.cache_results = true) (hf : s.cacheFile = some items)
    (hstale : s.cache_timeout < now) :
    Linkding.get_results (.error e) now s =
      (.error e, { s with cache_timeout := now + s.cache_length },
        ⟨1, 0, 0⟩) ∧
    ∀ (fetch1 : Except String (List Article)) (now1 : Nat),
      now1 ≤ now + s.cache_length →
      Linkding.get_results fetch1 now1
          { s with cache_timeout := now + s.cache_length } =
        (.ok items, { s with cache_timeout := now + s.cache_length },
          ⟨0, 1, 0⟩) := by
  obtain ⟨cr, cl, ac, ts, cf, ct⟩ := s
  simp only at hc hf hstale
  subst hc hf
  constructor
  · simp [Linkding.get_results, Linkding.get_cached_results,
      Linkding.refresh_cache, Nat.not_le.mpr hstale]
  · intro fetch1 now1 hnow1
    simp [Linkding.get_results, Linkding.get_cached_results, hnow1]

/-- C4 witness: the amended behavior at the concrete stale state. -/
theorem C4_failed_refresh_advances_timeout_witness :
    Linkding.get_results (.error "ConnectTimeout") 10 ldStale =
      (.error "ConnectTimeout",
        { ldStale with cache_timeout := 10 + ldStale.cache_length },
        ⟨1, 0, 0⟩) ∧
    Linkding.get_results (.error "still down") 20
        { ldStale with cache_timeout := 10 + ldStale.cache_length } =
      (.ok [art1],
        { ldStale with cache_timeout := 10 + ldStale.cache_length },
        ⟨0, 1, 0⟩) :=
  ⟨(C4_failed_refresh_advances_timeout ldStale 10 "ConnectTimeout" [art1]
      rfl rfl (by decide)).1,
   (C4_failed_refresh_advances_timeout ldStale 10 "ConnectTimeout" [art1]
      rfl rfl (by decide)).2 (.error "still down") 20 (by decide)⟩

/-- C6: for both mutations of the Linkding plugin, a successful remote
call immediately runs the same unconditional `refresh_cache` path the
background timer uses, leaving the cache repopulated with the fetched
items and the timeout reset; a failed remote call triggers no refresh
and returns the state — cache entry and validity timestamp — exactly as
it was. -/
theorem C6_mutation_triggers_refresh (s : Linkding.LdState) (now : Nat)
    (items : List Article) (fetch : Except String (List Article)) :
    Linkding.archive_link true fetch now s =
      ((Linkding.refresh_cache fetch now s).2, 1) ∧
    Linkding.delete_link true fetch now s =
      ((Linkding.refresh_cache fetch now s).2, 1) ∧
    (Linkding.archive_link true (.ok items) now s).1 =
      { s with cache_timeout := now + s.cache_length,
               cacheFile := some items } ∧
    (Linkding.delete_link true (.ok items) now s).1 =
      { s with cache_timeout := now + s.cache_length,
               cacheFile := some items } ∧
    Linkding.archive_link false fetch now s = (s, 0) ∧
    Linkding.delete_link false fetch now s = (s, 0) :=
  ⟨rfl, rfl, rfl, rfl, rfl, rfl⟩

/-- C7: in both plugins, a keystroke-driven trigger query with
non-empty stripped text whose `query.isValid` turns false at any of the
50 10ms debounce checks returns early with zero remote fetches, zero
cache reads and zero filter passes, leaving the state unchanged. -/
theorem C7_debounce_cancellation :
    (∀ (q : String) (validAt : Nat → Bool)
        (fetch : Except String (List Article)) (now : Nat)
        (s : Linkding.LdState),
      pyStrip q ≠ "" → (∃ i, i < 50 ∧ validAt i = false) →
      Linkding.handleTriggerQuery q validAt fetch now s =
        (.aborted, s, ⟨0, 0, 0⟩)) ∧
    (∀ (instance_url q : String) (validAt : Nat → Bool)
        (fetch : Except String (List Paperless.Document)) (now : Nat)
        (p : Paperless.PlState),
      pyStrip q ≠ "" → (∃ i, i < 50 ∧ validAt i = false) →
      Paperless.handleTriggerQuery instance_url q validAt fetch now p =
        (.aborted, p, ⟨0, 0, 0⟩)) := by
  constructor
  · intro q validAt fetch now s hq hcancel
    obtain ⟨i, hi, hv⟩ := hcancel
    have habort : (List.range 50).any (fun j => !(validAt j)) = true := by
      rw [List.any_eq_true]
      exact ⟨i, List.mem_range.mpr hi, by simp [hv]⟩
    simp [Linkding.handleTriggerQuery, hq, habort]
  · intro instance_url q validAt fetch now p hq hcancel
    obtain ⟨i, hi, hv⟩ := hcancel
    have habort : (List.range 50).any (fun j => !(validAt j)) = true := by
      rw [List.any_eq_true]
      exact ⟨i, List.mem_range.mpr hi, by simp [hv]⟩
    simp [Paperless.handleTriggerQuery, hq, habort]

/-- C7 witness: queries invalidated at the 4th (resp. 8th) debounce
check abort with zero work. -/
theorem C7_debounce_cancellation_witness :
    Linkding.handleTriggerQuery "news" (fun i => i != 3) (.ok [art1]) 0
        ldCold = (.aborted, ldCold, ⟨0, 0, 0⟩) ∧
    Paperless.handleTriggerQuery "http://pl.example" "invoice"
        (fun i => i != 7) (.ok [doc1]) 0 plCold =
      (.aborted, plCold, ⟨0, 0, 0⟩) :=
  ⟨C7_debounce_cancellation.1 "news" (fun i => i != 3) (.ok [art1]) 0 ldCold
      (by decide) ⟨3, by decide, rfl⟩,
   C7_debounce_cancellation.2 "http://pl.example" "invoice"
      (fun i => i != 7) (.ok [doc1]) 0 plCold (by decide)
      ⟨7, by decide, rfl⟩⟩

/-- C8 counterexample: in the Paperless plugin, after toggling
`auto_cache` off via its setter, a background timer fire still performs
a full cache refresh (1 refresh, cache overwritten) — the routine
`while True: self.refresh_cache(); sleep(3600)` checks no stop flag, so
the claim fails for this plugin instance. -/
theorem C8_paperless_counterexample :
    (Paperless.set_auto_cache false plAuto).auto_cache = false ∧
    (Paperless.cache_routine_fire (.ok [doc2]) 200
        (Paperless.set_auto_cache false plAuto)).2 = 1 ∧
    (Paperless.cache_routine_fire (.ok [doc2]) 200
        (Paperless.set_auto_cache false plAuto)).1.cacheFile = some [doc2] :=
  ⟨rfl, rfl, rfl⟩

/-- C8 as amended: in the Linkding plugin, toggling `auto_cache` off
sets the `thread_stop` event, and any timer fire with the stop event
set performs no refresh and leaves the state untouched; in the
Paperless plugin the background routine has no stop mechanism and every
timer fire performs a refresh regardless of `auto_cache`. -/
theorem C8_auto_refresh_toggle :
    (∀ (s : Linkding.LdState) (fetch : Except String (List Article))
        (now : Nat),
      Linkding.cache_routine_fire fetch now (Linkding.set_auto_cache false s) =
        (Linkding.set_auto_cache false s, 0)) ∧
    (∀ (s : Linkding.LdState) (fetch : Except String (List Article))
        (now : Nat),
      s.thread_stop = true →
      Linkding.cache_routine_fire fetch now s = (s, 0)) ∧
    (∀ (p : Paperless.PlState)
        (fetch : Except String (List Paperless.Document)) (now : Nat),
      (Paperless.cache_routine_fire fetch now p).2 = 1) := by
  refine ⟨fun s fetch now => rfl, ?_, fun p fetch now => rfl⟩
  intro s fetch now hstop
  simp [Linkding.cache_routine_fire, hstop]

/-- C8 witness: the amended behavior at concrete states. -/
theorem C8_auto_refresh_toggle_witness :
    Linkding.cache_routine_fire (.ok [art1]) 99
        (Linkding.set_auto_cache false ldCold) =
      (Linkding.set_auto_cache false ldCold, 0) ∧
    Linkding.cache_routine_fire (.ok [art1]) 99 ldStale = (ldStale, 0) ∧
    (Paperless.cache_routine_fire (.ok [doc1]) 99 plCold).2 = 1 :=
  ⟨C8_auto_refresh_toggle.1 ldCold (.ok [art1]) 99,
   C8_auto_refresh_toggle.2.1 ldStale (.ok [art1]) 99 rfl,
   C8_auto_refresh_toggle.2.2 plCold (.ok [doc1]) 99⟩

/-- C9: `unlink(missing_ok=True)` on an absent cache file is a no-op
(and, being total in the model as in Python, never an error), the
deletion is idempotent, and flipping `cache_results` to false deletes
the cache entry in both plugins. -/
theorem C9_clear_idempotent (s s2 : Linkding.LdState)
    (p : Paperless.PlState) (habsent : s.cacheFile = none) :
    Linkding.unlink_cache_file s = s ∧
    Linkding.unlink_cache_file (Linkding.unlink_cache_file s2) =
      Linkding.unlink_cache_file s2 ∧
    (Linkding.set_cache_results false s2).cacheFile = none ∧
    (Paperless.set_cache_results false p).cacheFile = none := by
  obtain ⟨cr, cl, ac, ts, cf, ct⟩ := s
  simp only at habsent
  subst habsent
  exact ⟨rfl, rfl, rfl, rfl⟩

/-- C9 witness: the concrete states. -/
theorem C9_clear_idempotent_witness :
    Linkding.unlink_cache_file ldNoCache = ldNoCache ∧
    Linkding.unlink_cache_file (Linkding.unlink_cache_file ldStale) =
      Linkding.unlink_cache_file ldStale ∧
    (Linkding.set_cache_results false ldStale).cacheFile = none ∧
    (Paperless.set_cache_results false plAuto).cacheFile = none :=
  C9_clear_idempotent ldNoCache ldStale plAuto rfl

/-- C10: every result item the Linkding plugin generates carries a
"Delete article" action whose callable is `archive_link` on the
article's id — identical to the "Archive article" action's — and no
generated action ever invokes `delete_link`. -/
theorem C10_delete_action_calls_archive (articles : List Article)
    (it : StandardItem) (hit : it ∈ Linkding.gen_items articles) :
    ∃ a, a ∈ articles ∧
      it.actions.find? (fun act => act.id == "delete") =
        some ⟨"delete", "Delete article", .archiveLink a.id⟩ ∧
      it.actions.find? (fun act => act.id == "archive") =
        some ⟨"archive", "Archive article", .archiveLink a.id⟩ ∧
      ∀ act ∈ it.actions, ∀ j, act.op ≠ ItemAction.deleteLink j := by
  rw [Linkding.gen_items, List.mem_map] at hit
  obtain ⟨a, ha, rfl⟩ := hit
  refine ⟨a, ha, by rfl, by rfl, ?_⟩
  intro act hact j
  simp only [List.mem_cons, List.not_mem_nil, or_false] at hact
  rcases hact with h | h | h | h <;> subst h <;> simp

/-- C10 witness: the item generated for `art1`. -/
theorem C10_delete_action_calls_archive_witness :
    ∃ a, a ∈ [art1] ∧
      ldItem1.actions.find? (fun act => act.id == "delete") =
        some ⟨"delete", "Delete article", .archiveLink a.id⟩ ∧
      ldItem1.actions.find? (fun act => act.id == "archive") =
        some ⟨"archive", "Archive article", .archiveLink a.id⟩ ∧
      ∀ act ∈ ldItem1.actions, ∀ j, act.op ≠ ItemAction.deleteLink j :=
  C10_delete_action_calls_archive [art1] ldItem1 (by decide)

end AlbertPython
